import Mathlib

/-!
Shallow embedding of the Seplos BMS telemetry frame decoder
(src/components/seplos_bms/seplos_bms.cpp) and proofs of the spec claims.

Modelling conventions:
* a frame is a `List Nat` of byte values (each below 256 on real input);
* `float` arithmetic on decoded physical values is modelled exactly over `ℚ`
  (all scale factors are exact decimal constants and 16-bit raw values are
  integers, so the rational model tracks the float computation faithfully);
* the side-effecting `publish_state_` calls are modelled by the decoder
  returning one `TelemetryOutput` record: a published scalar is a `some`
  field, a skipped one is `none`;
* `ℚ` division by zero yields 0 (Lean convention) where the C float code
  would produce a non-finite value (only reachable with a zero cell count).
-/

namespace SeplosBms

/-- Protocol version byte 0x21 (`#define SEPLOS_PROTOCOL_V21 0x21`). -/
def SEPLOS_PROTOCOL_V21 : Nat := 0x21

/-- Protocol version byte 0x25 (`#define SEPLOS_PROTOCOL_V25 0x25`). -/
def SEPLOS_PROTOCOL_V25 : Nat := 0x25

/-- Field byte offsets for one protocol version (struct `seplos_offsets_t`). -/
structure seplos_offsets_t where
  cell_count_offset : Nat
  cell_voltages_start : Nat
  temp_sensor_count_offset : Nat
  temp_sensors_start : Nat
  current_offset : Nat
  total_voltage_offset : Nat
  residual_capacity_offset : Nat
  battery_capacity_offset : Nat
  soc_offset : Nat
  rated_capacity_offset : Nat
  cycles_offset : Nat
  soh_offset : Nat
  port_voltage_offset : Nat

/-- The v0x21 entry of `OFFSET_MAP`. -/
def offsets_v21 : seplos_offsets_t :=
  { cell_count_offset := 7
    cell_voltages_start := 8
    temp_sensor_count_offset := 38
    temp_sensors_start := 39
    current_offset := 53
    total_voltage_offset := 55
    residual_capacity_offset := 57
    battery_capacity_offset := 61
    soc_offset := 63
    rated_capacity_offset := 65
    cycles_offset := 67
    soh_offset := 69
    port_voltage_offset := 71 }

/-- The v0x25 entry of `OFFSET_MAP`. -/
def offsets_v25 : seplos_offsets_t :=
  { cell_count_offset := 8
    cell_voltages_start := 9
    temp_sensor_count_offset := 39
    temp_sensors_start := 40
    current_offset := 52
    total_voltage_offset := 54
    residual_capacity_offset := 56
    battery_capacity_offset := 60
    soc_offset := 62
    rated_capacity_offset := 64
    cycles_offset := 66
    soh_offset := 68
    port_voltage_offset := 70 }

/-- The static registry `OFFSET_MAP : std::map<uint8_t, seplos_offsets_t>`,
as the lookup function `find` realizes: `none` models `find == end()`. -/
def OFFSET_MAP (version : Nat) : Option seplos_offsets_t :=
  if version = SEPLOS_PROTOCOL_V21 then some offsets_v21
  else if version = SEPLOS_PROTOCOL_V25 then some offsets_v25
  else none

/-- The lambda `seplos_get_16bit`: big-endian unsigned 16-bit read at `i`
(`(uint16_t(data[i]) << 8) | uint16_t(data[i + 1])`); the result is a
`uint16_t`, hence the explicit reduction modulo 2^16. Out-of-range indices
read the default 0 (every call site guards `i + 1 < data.length` except the
traced unguarded reads, see `decoderReadIndices`). -/
def seplos_get_16bit (data : List Nat) (i : Nat) : Nat :=
  ((data.getD i 0) * 256 + data.getD (i + 1) 0) % 65536

/-- The C cast `(int16_t)` applied to a `uint16_t` value: reinterpret the low
16 bits as two's complement. -/
def toInt16 (raw : Nat) : Int :=
  if raw % 65536 < 32768 then (raw % 65536 : Int) else (raw % 65536 : Int) - 65536

/-- Accumulator of the cell-voltage loop: the local variables
`average_cell_voltage` (a running sum until the final division),
`min_cell_voltage`, `max_cell_voltage`, `min_voltage_cell`,
`max_voltage_cell`, plus the list of cell voltages published so far. -/
structure CellAcc where
  average_cell_voltage : ℚ
  min_cell_voltage : ℚ
  max_cell_voltage : ℚ
  min_voltage_cell : Nat
  max_voltage_cell : Nat
  cell_voltages : List ℚ

/-- Initial values of the loop locals (`100.0f`, `-100.0f`, indices 0). -/
def initCellAcc : CellAcc :=
  { average_cell_voltage := 0
    min_cell_voltage := 100
    max_cell_voltage := -100
    min_voltage_cell := 0
    max_voltage_cell := 0
    cell_voltages := [] }

/-- The loop `for (i = 0; i < min(16, cells); i++)` over cell voltages:
`rem` is the number of iterations left, `i` the current cell index.
`pos = cell_voltages_start + i*2`; if `pos + 1 >= data.size()` the loop
breaks; otherwise the voltage `raw * (1 / 1000)` is accumulated, min/max are
tracked with strict comparisons and 1-based indices, and the voltage is
published (collected into `cell_voltages`). -/
def cellLoop (data : List Nat) (start : Nat) : Nat → Nat → CellAcc → CellAcc
  | 0, _, acc => acc
  | rem + 1, i, acc =>
    let pos := start + i * 2
    if pos + 1 ≥ data.length then acc
    else
      let raw_voltage := seplos_get_16bit data pos
      let cell_voltage : ℚ := (raw_voltage : ℚ) * (1 / 1000)
      cellLoop data start rem (i + 1)
        { average_cell_voltage := acc.average_cell_voltage + cell_voltage
          min_cell_voltage :=
            if cell_voltage < acc.min_cell_voltage then cell_voltage
            else acc.min_cell_voltage
          max_cell_voltage :=
            if cell_voltage > acc.max_cell_voltage then cell_voltage
            else acc.max_cell_voltage
          min_voltage_cell :=
            if cell_voltage < acc.min_cell_voltage then i + 1
            else acc.min_voltage_cell
          max_voltage_cell :=
            if cell_voltage > acc.max_cell_voltage then i + 1
            else acc.max_voltage_cell
          cell_voltages := acc.cell_voltages ++ [cell_voltage] }

/-- The loop `for (i = 0; i < min(6, temperature_sensors); i++)`:
`pos = temp_sensors_start + i*2`, break when `pos + 1 >= data.size()`,
each reading converted by `(raw_temp - 2731.0f) * 0.1f`. -/
def tempLoop (data : List Nat) (start : Nat) : Nat → Nat → List ℚ → List ℚ
  | 0, _, temps => temps
  | rem + 1, i, temps =>
    let pos := start + i * 2
    if pos + 1 ≥ data.length then temps
    else
      let raw_temp := seplos_get_16bit data pos
      let temperature : ℚ := ((raw_temp : ℚ) - 2731) * (1 / 10)
      tempLoop data start rem (i + 1) (temps ++ [temperature])

/-- The lambda `safe_publish`: publish `raw * coeff` only when
`pos + 1 < data.size()`. -/
def safe_publish (data : List Nat) (pos : Nat) (coeff : ℚ) : Option ℚ :=
  if pos + 1 < data.length then some ((seplos_get_16bit data pos : ℚ) * coeff)
  else none

/-- The layout the decoder uses: `OFFSET_MAP.at(data[0])`. The function is
only invoked after validation, where the lookup cannot fail; the `getD`
default makes the model total. -/
def frameOffsets (data : List Nat) : seplos_offsets_t :=
  (OFFSET_MAP (data.getD 0 0)).getD offsets_v21

/-- The local `cells`: `override_cell_count_` when non-zero (C truthiness of
the `uint8_t` member), else the unguarded read
`data[offsets.cell_count_offset]`. -/
def effective_cells (data : List Nat) (override_cell_count : Nat) : Nat :=
  if override_cell_count ≠ 0 then override_cell_count
  else data.getD (frameOffsets data).cell_count_offset 0

/-- The accumulator after the full cell-voltage loop
`for (i = 0; i < min(16, cells); i++)`. -/
def cellAccOf (data : List Nat) (override_cell_count : Nat) : CellAcc :=
  cellLoop data (frameOffsets data).cell_voltages_start
    (min 16 (effective_cells data override_cell_count)) 0 initCellAcc

/-- The temperature list published by the loop
`for (i = 0; i < min(6, temperature_sensors); i++)` (only reached when
`temp_sensor_count_offset < data.size()`). -/
def temperaturesOf (data : List Nat) : List ℚ :=
  tempLoop data (frameOffsets data).temp_sensors_start
    (min 6 (data.getD (frameOffsets data).temp_sensor_count_offset 0)) 0 []

/-- Everything `on_telemetry_data_` publishes for one frame. The cell
statistics are always published; the remaining fields are `Option`s because
the corresponding `publish_state_` call may not be reached. -/
structure TelemetryOutput where
  cell_voltages : List ℚ
  min_cell_voltage : ℚ
  max_cell_voltage : ℚ
  min_voltage_cell : Nat
  max_voltage_cell : Nat
  delta_cell_voltage : ℚ
  average_cell_voltage : ℚ
  temperatures : List ℚ
  current : Option ℚ
  total_voltage : Option ℚ
  power : Option ℚ
  charging_power : Option ℚ
  discharging_power : Option ℚ
  residual_capacity : Option ℚ
  battery_capacity : Option ℚ
  state_of_charge : Option ℚ
  rated_capacity : Option ℚ
  charging_cycles : Option ℚ
  state_of_health : Option ℚ
  port_voltage : Option ℚ

/-- `SeplosBms::on_telemetry_data_`, line for line:
* `protocol_version = data[0]`, `offsets = OFFSET_MAP.at(protocol_version)`
  (the function is only called on registered versions, so the `getD`
  default is unreachable there);
* `cells` is the override when non-zero, else the unguarded byte read
  `data[offsets.cell_count_offset]`;
* the cell-voltage loop, then `average_cell_voltage /= cells` and the six
  statistic publishes;
* `offset = temp_sensor_count_offset; if (offset >= data.size()) return;`
  - an early return that skips all remaining publishes;
* the temperature loop, the nested current / total-voltage / power block
  (`std::max(0.0f, power)` and `std::abs(std::min(0.0f, power))`), and the
  seven `safe_publish` calls. -/
def on_telemetry_data (data : List Nat) (override_cell_count : Nat) : TelemetryOutput :=
  let protocol_version := data.getD 0 0
  let offsets := frameOffsets data
  let cells := effective_cells data override_cell_count
  let acc := cellAccOf data override_cell_count
  let base : TelemetryOutput :=
    { cell_voltages := acc.cell_voltages
      min_cell_voltage := acc.min_cell_voltage
      max_cell_voltage := acc.max_cell_voltage
      min_voltage_cell := acc.min_voltage_cell
      max_voltage_cell := acc.max_voltage_cell
      delta_cell_voltage := acc.max_cell_voltage - acc.min_cell_voltage
      average_cell_voltage := acc.average_cell_voltage / (cells : ℚ)
      temperatures := []
      current := none
      total_voltage := none
      power := none
      charging_power := none
      discharging_power := none
      residual_capacity := none
      battery_capacity := none
      state_of_charge := none
      rated_capacity := none
      charging_cycles := none
      state_of_health := none
      port_voltage := none }
  if offsets.temp_sensor_count_offset ≥ data.length then base
  else
    let temperatures := temperaturesOf data
    let elec : Option ℚ × Option ℚ × Option ℚ × Option ℚ × Option ℚ :=
      if offsets.current_offset + 1 < data.length then
        let raw_current := toInt16 (seplos_get_16bit data offsets.current_offset)
        let current : ℚ := (raw_current : ℚ) * (1 / 100)
        if offsets.total_voltage_offset + 1 < data.length then
          let raw_voltage := seplos_get_16bit data offsets.total_voltage_offset
          let total_voltage : ℚ :=
            if protocol_version = SEPLOS_PROTOCOL_V21 then (raw_voltage : ℚ) * (1 / 100)
            else (raw_voltage : ℚ) * (1 / 1000)
          let power := total_voltage * current
          (some current, some total_voltage, some power,
            some (max 0 power), some |min 0 power|)
        else (some current, none, none, none, none)
      else (none, none, none, none, none)
    { base with
      temperatures := temperatures
      current := elec.1
      total_voltage := elec.2.1
      power := elec.2.2.1
      charging_power := elec.2.2.2.1
      discharging_power := elec.2.2.2.2
      residual_capacity := safe_publish data offsets.residual_capacity_offset (1 / 100)
      battery_capacity := safe_publish data offsets.battery_capacity_offset (1 / 100)
      state_of_charge := safe_publish data offsets.soc_offset (1 / 10)
      rated_capacity := safe_publish data offsets.rated_capacity_offset (1 / 100)
      charging_cycles := safe_publish data offsets.cycles_offset 1
      state_of_health := safe_publish data offsets.soh_offset (1 / 10)
      port_voltage := safe_publish data offsets.port_voltage_offset (1 / 100) }

/-- `SeplosBms::on_seplos_modbus_data`: reject frames shorter than 8 bytes,
reject unregistered protocol versions, otherwise run the telemetry decoder.
`none` models a rejected frame (nothing published). -/
def on_seplos_modbus_data (data : List Nat) (override_cell_count : Nat) :
    Option TelemetryOutput :=
  if data.length < 8 then none
  else if (OFFSET_MAP (data.getD 0 0)).isNone then none
  else some (on_telemetry_data data override_cell_count)

/-- Indices the cell-voltage loop reads from the frame (each guarded by
`pos + 1 < data.size()`), mirroring `cellLoop` read for read. -/
def cellLoopReads (data : List Nat) (start : Nat) : Nat → Nat → List Nat
  | 0, _ => []
  | rem + 1, i =>
    let pos := start + i * 2
    if pos + 1 ≥ data.length then []
    else pos :: (pos + 1) :: cellLoopReads data start rem (i + 1)

/-- Indices the temperature loop reads from the frame, mirroring `tempLoop`. -/
def tempLoopReads (data : List Nat) (start : Nat) : Nat → Nat → List Nat
  | 0, _ => []
  | rem + 1, i =>
    let pos := start + i * 2
    if pos + 1 ≥ data.length then []
    else pos :: (pos + 1) :: tempLoopReads data start rem (i + 1)

/-- Every byte index `on_telemetry_data_` subscripts into `data`, in program
order: `data[0]`, the unguarded `data[offsets.cell_count_offset]` (only when
no override is set), the guarded cell-voltage reads, and - unless the early
return on `temp_sensor_count_offset >= data.size()` fires - the temperature
count and slot reads, the guarded current / total-voltage reads, and the
seven guarded `safe_publish` reads. -/
def telemetryReadIndices (data : List Nat) (override_cell_count : Nat) : List Nat :=
  let offsets := frameOffsets data
  let cells := effective_cells data override_cell_count
  let pairReads := fun (pos : Nat) =>
    if pos + 1 < data.length then [pos, pos + 1] else []
  [0]
  ++ (if override_cell_count ≠ 0 then [] else [offsets.cell_count_offset])
  ++ cellLoopReads data offsets.cell_voltages_start (min 16 cells) 0
  ++ (if offsets.temp_sensor_count_offset ≥ data.length then []
      else
        [offsets.temp_sensor_count_offset]
        ++ tempLoopReads data offsets.temp_sensors_start
            (min 6 (data.getD offsets.temp_sensor_count_offset 0)) 0
        ++ (if offsets.current_offset + 1 < data.length then
              [offsets.current_offset, offsets.current_offset + 1]
              ++ (if offsets.total_voltage_offset + 1 < data.length then
                    [offsets.total_voltage_offset, offsets.total_voltage_offset + 1]
                  else [])
            else [])
        ++ pairReads offsets.residual_capacity_offset
        ++ pairReads offsets.battery_capacity_offset
        ++ pairReads offsets.soc_offset
        ++ pairReads offsets.rated_capacity_offset
        ++ pairReads offsets.cycles_offset
        ++ pairReads offsets.soh_offset
        ++ pairReads offsets.port_voltage_offset)

/-- Every byte index the whole entry point `on_seplos_modbus_data` subscripts
into `data`: nothing for a too-short frame (the length check precedes any
read), `data[0]` for the version lookup, then the telemetry reads when the
version is registered. -/
def decoderReadIndices (data : List Nat) (override_cell_count : Nat) : List Nat :=
  if data.length < 8 then []
  else
    0 :: (if (OFFSET_MAP (data.getD 0 0)).isNone then []
          else telemetryReadIndices data override_cell_count)

/-! ### Helper lemmas about the loops -/

/-- A 16-bit read is below 2^16. -/
theorem seplos_get_16bit_lt (data : List Nat) (i : Nat) : seplos_get_16bit data i < 65536 :=
  Nat.mod_lt _ (by norm_num)

/-- A scaled cell voltage is non-negative. -/
theorem cell_voltage_nonneg (data : List Nat) (pos : Nat) :
    0 ≤ (seplos_get_16bit data pos : ℚ) * (1 / 1000) :=
  mul_nonneg (Nat.cast_nonneg _) (by norm_num)

/-- A scaled cell voltage is below the sentinel 100 (raw is below 2^16). -/
theorem cell_voltage_lt_100 (data : List Nat) (pos : Nat) :
    (seplos_get_16bit data pos : ℚ) * (1 / 1000) < 100 := by
  have h : (seplos_get_16bit data pos : ℚ) < 65536 := by
    exact_mod_cast seplos_get_16bit_lt data pos
  nlinarith

/-- The sequence of cell voltages the loop reads starting at cell `i` with
`rem` iterations left, detached from the accumulator. -/
def voltsList (data : List Nat) (start : Nat) : Nat → Nat → List ℚ
  | 0, _ => []
  | rem + 1, i =>
    if start + i * 2 + 1 ≥ data.length then []
    else ((seplos_get_16bit data (start + i * 2) : ℚ) * (1 / 1000)) ::
      voltsList data start rem (i + 1)

/-- The cell-voltage loop only appends to the published list: the final list
is the initial one followed by `voltsList`. -/
theorem cellLoop_volts (data : List Nat) (start : Nat) :
    ∀ (rem i : Nat) (acc : CellAcc),
      (cellLoop data start rem i acc).cell_voltages =
        acc.cell_voltages ++ voltsList data start rem i := by
  intro rem
  induction rem with
  | zero => intro i acc; simp [cellLoop, voltsList]
  | succ rem ih =>
    intro i acc
    by_cases h : start + i * 2 + 1 ≥ data.length
    · simp [cellLoop, voltsList, h]
    · simp only [cellLoop, voltsList, h, if_neg, ite_false, not_false_iff]
      rw [ih]
      simp

/-- Each loop iteration fits in the remaining budget. -/
theorem voltsList_len_le (data : List Nat) (start : Nat) :
    ∀ (rem i : Nat), (voltsList data start rem i).length ≤ rem := by
  intro rem
  induction rem with
  | zero => intro i; simp [voltsList]
  | succ rem ih =>
    intro i
    by_cases h : start + i * 2 + 1 ≥ data.length
    · simp [voltsList, h]
    · simp only [voltsList, h, ite_false, List.length_cons]
      exact Nat.succ_le_succ (ih (i + 1))

/-- If slot `i + k` lies within the frame (and within the budget), the loop
reaches it: the break can only fire at an out-of-bounds slot. -/
theorem voltsList_reaches (data : List Nat) (start : Nat) :
    ∀ (rem i k : Nat), k < rem → start + (i + k) * 2 + 1 < data.length →
      k < (voltsList data start rem i).length := by
  intro rem
  induction rem with
  | zero => intro i k hk _; omega
  | succ rem ih =>
    intro i k hk hin
    have hguard : ¬ start + i * 2 + 1 ≥ data.length := by omega
    simp only [voltsList, hguard, ite_false, List.length_cons]
    cases k with
    | zero => omega
    | succ k =>
      have := ih (i + 1) k (by omega) (by omega)
      omega

/-- Value of slot `j` of `voltsList`. -/
theorem voltsList_getD (data : List Nat) (start : Nat) :
    ∀ (rem i j : Nat), j < (voltsList data start rem i).length →
      (voltsList data start rem i).getD j 0 =
        (seplos_get_16bit data (start + (i + j) * 2) : ℚ) * (1 / 1000) := by
  intro rem
  induction rem with
  | zero => intro i j hj; simp [voltsList] at hj
  | succ rem ih =>
    intro i j hj
    by_cases h : start + i * 2 + 1 ≥ data.length
    · simp [voltsList, h] at hj
    · simp only [voltsList, h, ite_false] at hj ⊢
      cases j with
      | zero => simp
      | succ j =>
        simp only [List.getD_cons_succ, List.length_cons] at hj ⊢
        rw [ih (i + 1) j (by omega)]
        have : i + 1 + j = i + (j + 1) := by omega
        rw [this]

/-- Invariant of the cell-voltage loop accumulator: the running sum equals
the sum of the published voltages, every published voltage lies strictly
between the sentinels, and the tracked min/max are the extremes of the
published list together with the 1-based index of their first occurrence
(updates use strict comparisons, so ties keep the first-seen index). -/
structure CellInv (acc : CellAcc) : Prop where
  sum_eq : acc.average_cell_voltage = acc.cell_voltages.sum
  bounds : ∀ v ∈ acc.cell_voltages, 0 ≤ v ∧ v < 100
  empty_min : acc.cell_voltages = [] →
    acc.min_cell_voltage = 100 ∧ acc.min_voltage_cell = 0
  empty_max : acc.cell_voltages = [] →
    acc.max_cell_voltage = -100 ∧ acc.max_voltage_cell = 0
  min_mem : acc.cell_voltages ≠ [] → acc.min_cell_voltage ∈ acc.cell_voltages
  min_le : ∀ v ∈ acc.cell_voltages, acc.min_cell_voltage ≤ v
  min_idx : acc.cell_voltages ≠ [] →
    1 ≤ acc.min_voltage_cell ∧ acc.min_voltage_cell ≤ acc.cell_voltages.length ∧
    acc.cell_voltages.getD (acc.min_voltage_cell - 1) 0 = acc.min_cell_voltage ∧
    ∀ k < acc.min_voltage_cell - 1, acc.min_cell_voltage < acc.cell_voltages.getD k 0
  max_mem : acc.cell_voltages ≠ [] → acc.max_cell_voltage ∈ acc.cell_voltages
  max_ge : ∀ v ∈ acc.cell_voltages, v ≤ acc.max_cell_voltage
  max_idx : acc.cell_voltages ≠ [] →
    1 ≤ acc.max_voltage_cell ∧ acc.max_voltage_cell ≤ acc.cell_voltages.length ∧
    acc.cell_voltages.getD (acc.max_voltage_cell - 1) 0 = acc.max_cell_voltage ∧
    ∀ k < acc.max_voltage_cell - 1, acc.cell_voltages.getD k 0 < acc.max_cell_voltage

/-- The initial accumulator satisfies the invariant. -/
theorem initCellAcc_inv : CellInv initCellAcc := by
  constructor <;> simp [initCellAcc]

/-- One loop iteration preserves the invariant (`i` is the current cell
index, equal to the number of voltages published so far). -/
theorem cellStep_inv (acc : CellAcc) (v : ℚ) (i : Nat)
    (hi : acc.cell_voltages.length = i) (h0 : 0 ≤ v) (h1 : v < 100)
    (H : CellInv acc) :
    CellInv
      { average_cell_voltage := acc.average_cell_voltage + v
        min_cell_voltage := if v < acc.min_cell_voltage then v else acc.min_cell_voltage
        max_cell_voltage := if v > acc.max_cell_voltage then v else acc.max_cell_voltage
        min_voltage_cell := if v < acc.min_cell_voltage then i + 1 else acc.min_voltage_cell
        max_voltage_cell := if v > acc.max_cell_voltage then i + 1 else acc.max_voltage_cell
        cell_voltages := acc.cell_voltages ++ [v] } := by
  have hlen : acc.cell_voltages.length = i := hi
  constructor
  case sum_eq => simp [List.sum_append, H.sum_eq]
  case bounds =>
    intro w hw
    rcases List.mem_append.mp hw with h | h
    · exact H.bounds w h
    · simp only [List.mem_singleton] at h
      subst h; exact ⟨h0, h1⟩
  case empty_min => intro h; simp at h
  case empty_max => intro h; simp at h
  case min_mem =>
    intro _
    by_cases hv : v < acc.min_cell_voltage
    · simp [hv]
    · simp only [if_neg hv]
      rcases eq_or_ne acc.cell_voltages [] with he | he
      · exact absurd (lt_of_lt_of_le h1 (le_of_eq (H.empty_min he).1.symm)) hv
      · exact List.mem_append_left _ (H.min_mem he)
  case min_le =>
    intro w hw
    rcases List.mem_append.mp hw with h | h
    · by_cases hv : v < acc.min_cell_voltage
      · simp only [if_pos hv]
        exact le_of_lt (lt_of_lt_of_le hv (H.min_le w h))
      · simp only [if_neg hv]
        exact H.min_le w h
    · rw [List.mem_singleton.mp h]
      by_cases hv : v < acc.min_cell_voltage
      · simp [hv]
      · simp only [if_neg hv]
        exact not_lt.mp hv
  case min_idx =>
    intro _
    by_cases hv : v < acc.min_cell_voltage
    · simp only [if_pos hv]
      refine ⟨by omega, by simp [hlen], ?_, ?_⟩
      · have h9 : acc.cell_voltages.length ≤ i + 1 - 1 := by omega
        rw [List.getD_append_right _ _ _ _ h9]
        simp [hlen]
      · intro k hk
        have hk2 : k < acc.cell_voltages.length := by omega
        rw [List.getD_append _ _ _ _ hk2]
        have hmem : acc.cell_voltages.getD k 0 ∈ acc.cell_voltages := by
          rw [List.getD_eq_getElem _ _ hk2]
          exact List.getElem_mem hk2
        exact lt_of_lt_of_le hv (H.min_le _ hmem)
    · simp only [if_neg hv]
      have he : acc.cell_voltages ≠ [] := by
        intro he
        exact hv (lt_of_lt_of_le h1 (le_of_eq (H.empty_min he).1.symm))
      obtain ⟨ha, hb, hc, hd⟩ := H.min_idx he
      have hpos : 0 < acc.cell_voltages.length := List.length_pos.mpr he
      refine ⟨ha, by simp; omega, ?_, ?_⟩
      · have h9 : acc.min_voltage_cell - 1 < acc.cell_voltages.length := by omega
        rw [List.getD_append _ _ _ _ h9]
        exact hc
      · intro k hk
        have hk2 : k < acc.cell_voltages.length := by omega
        rw [List.getD_append _ _ _ _ hk2]
        exact hd k hk
  case max_mem =>
    intro _
    by_cases hv : v > acc.max_cell_voltage
    · simp [hv]
    · simp only [if_neg hv]
      rcases eq_or_ne acc.cell_voltages [] with he | he
      · exfalso
        apply hv
        calc acc.max_cell_voltage = -100 := (H.empty_max he).1
          _ < 0 := by norm_num
          _ ≤ v := h0
      · exact List.mem_append_left _ (H.max_mem he)
  case max_ge =>
    intro w hw
    rcases List.mem_append.mp hw with h | h
    · by_cases hv : v > acc.max_cell_voltage
      · simp only [if_pos hv]
        exact le_of_lt (lt_of_le_of_lt (H.max_ge w h) hv)
      · simp only [if_neg hv]
        exact H.max_ge w h
    · rw [List.mem_singleton.mp h]
      by_cases hv : v > acc.max_cell_voltage
      · simp [hv]
      · simp only [if_neg hv]
        exact not_lt.mp hv
  case max_idx =>
    intro _
    by_cases hv : v > acc.max_cell_voltage
    · simp only [if_pos hv]
      refine ⟨by omega, by simp [hlen], ?_, ?_⟩
      · have h9 : acc.cell_voltages.length ≤ i + 1 - 1 := by omega
        rw [List.getD_append_right _ _ _ _ h9]
        simp [hlen]
      · intro k hk
        have hk2 : k < acc.cell_voltages.length := by omega
        rw [List.getD_append _ _ _ _ hk2]
        have hmem : acc.cell_voltages.getD k 0 ∈ acc.cell_voltages := by
          rw [List.getD_eq_getElem _ _ hk2]
          exact List.getElem_mem hk2
        exact lt_of_le_of_lt (H.max_ge _ hmem) hv
    · simp only [if_neg hv]
      have he : acc.cell_voltages ≠ [] := by
        intro he
        apply hv
        calc acc.max_cell_voltage = -100 := (H.empty_max he).1
          _ < 0 := by norm_num
          _ ≤ v := h0
      obtain ⟨ha, hb, hc, hd⟩ := H.max_idx he
      have hpos : 0 < acc.cell_voltages.length := List.length_pos.mpr he
      refine ⟨ha, by simp; omega, ?_, ?_⟩
      · have h9 : acc.max_voltage_cell - 1 < acc.cell_voltages.length := by omega
        rw [List.getD_append _ _ _ _ h9]
        exact hc
      · intro k hk
        have hk2 : k < acc.cell_voltages.length := by omega
        rw [List.getD_append _ _ _ _ hk2]
        exact hd k hk

/-- The whole loop preserves the invariant. -/
theorem cellLoop_inv (data : List Nat) (start : Nat) :
    ∀ (rem i : Nat) (acc : CellAcc), CellInv acc → acc.cell_voltages.length = i →
      CellInv (cellLoop data start rem i acc) := by
  intro rem
  induction rem with
  | zero => intro i acc H _; simpa [cellLoop] using H
  | succ rem ih =>
    intro i acc H hlen
    by_cases h : start + i * 2 + 1 ≥ data.length
    · simpa [cellLoop, h] using H
    · simp only [cellLoop, h, ite_false]
      refine ih (i + 1) _ ?_ ?_
      · exact cellStep_inv acc _ i hlen (cell_voltage_nonneg data _)
          (cell_voltage_lt_100 data _) H
      · simp [hlen]

/-- The accumulator produced for a frame satisfies the invariant. -/
theorem cellAccOf_inv (data : List Nat) (override_cell_count : Nat) :
    CellInv (cellAccOf data override_cell_count) :=
  cellLoop_inv data _ _ 0 initCellAcc initCellAcc_inv rfl

/-- The published cell voltages are exactly `voltsList` from cell 0. -/
theorem cellAccOf_volts (data : List Nat) (override_cell_count : Nat) :
    (cellAccOf data override_cell_count).cell_voltages =
      voltsList data (frameOffsets data).cell_voltages_start
        (min 16 (effective_cells data override_cell_count)) 0 := by
  unfold cellAccOf
  rw [cellLoop_volts]
  simp [initCellAcc]

/-- The six cell statistics the decoder publishes are the fields of the final
loop accumulator (published before the temperature-count early return, hence
unconditionally). -/
theorem on_telemetry_data_cell_fields (data : List Nat) (override_cell_count : Nat) :
    (on_telemetry_data data override_cell_count).cell_voltages =
        (cellAccOf data override_cell_count).cell_voltages ∧
      (on_telemetry_data data override_cell_count).min_cell_voltage =
        (cellAccOf data override_cell_count).min_cell_voltage ∧
      (on_telemetry_data data override_cell_count).max_cell_voltage =
        (cellAccOf data override_cell_count).max_cell_voltage ∧
      (on_telemetry_data data override_cell_count).min_voltage_cell =
        (cellAccOf data override_cell_count).min_voltage_cell ∧
      (on_telemetry_data data override_cell_count).max_voltage_cell =
        (cellAccOf data override_cell_count).max_voltage_cell ∧
      (on_telemetry_data data override_cell_count).delta_cell_voltage =
        (cellAccOf data override_cell_count).max_cell_voltage -
          (cellAccOf data override_cell_count).min_cell_voltage ∧
      (on_telemetry_data data override_cell_count).average_cell_voltage =
        (cellAccOf data override_cell_count).average_cell_voltage /
          (effective_cells data override_cell_count : ℚ) := by
  unfold on_telemetry_data
  dsimp only
  split <;> simp

/-- The temperature loop only appends to its accumulator list. -/
theorem tempLoop_append (data : List Nat) (start : Nat) :
    ∀ (rem i : Nat) (ts : List ℚ),
      tempLoop data start rem i ts = ts ++ tempLoop data start rem i [] := by
  intro rem
  induction rem with
  | zero => intro i ts; simp [tempLoop]
  | succ rem ih =>
    intro i ts
    by_cases h : start + i * 2 + 1 ≥ data.length
    · simp [tempLoop, h]
    · simp only [tempLoop, h, ite_false]
      rw [ih (i + 1) (ts ++ [_])]
      simp only [List.nil_append]
      rw [ih (i + 1) [_], List.append_assoc]

/-- Unfolding equation of the temperature loop run on an empty accumulator. -/
theorem tempLoop_nil_succ (data : List Nat) (start rem i : Nat) :
    tempLoop data start (rem + 1) i [] =
      if start + i * 2 + 1 ≥ data.length then []
      else ((seplos_get_16bit data (start + i * 2) : ℚ) - 2731) * (1 / 10) ::
        tempLoop data start rem (i + 1) [] := by
  by_cases h : start + i * 2 + 1 ≥ data.length
  · simp [tempLoop, h]
  · simp only [tempLoop, h, ite_false]
    rw [tempLoop_append]
    simp

/-- The temperature loop produces at most `rem` readings. -/
theorem tempLoop_len_le (data : List Nat) (start : Nat) :
    ∀ (rem i : Nat), (tempLoop data start rem i []).length ≤ rem := by
  intro rem
  induction rem with
  | zero => intro i; simp [tempLoop]
  | succ rem ih =>
    intro i
    rw [tempLoop_nil_succ]
    by_cases h : start + i * 2 + 1 ≥ data.length
    · simp [h]
    · simp only [h, ite_false, List.length_cons]
      exact Nat.succ_le_succ (ih (i + 1))

/-- If temperature slot `i + k` lies within the frame, the loop reaches it. -/
theorem tempLoop_reaches (data : List Nat) (start : Nat) :
    ∀ (rem i k : Nat), k < rem → start + (i + k) * 2 + 1 < data.length →
      k < (tempLoop data start rem i []).length := by
  intro rem
  induction rem with
  | zero => intro i k hk _; omega
  | succ rem ih =>
    intro i k hk hin
    have hguard : ¬ start + i * 2 + 1 ≥ data.length := by omega
    rw [tempLoop_nil_succ]
    simp only [hguard, ite_false, List.length_cons]
    cases k with
    | zero => omega
    | succ k =>
      have := ih (i + 1) k (by omega) (by omega)
      omega

/-- Value of reading `j` of the temperature loop. -/
theorem tempLoop_getD (data : List Nat) (start : Nat) :
    ∀ (rem i j : Nat), j < (tempLoop data start rem i []).length →
      (tempLoop data start rem i []).getD j 0 =
        ((seplos_get_16bit data (start + (i + j) * 2) : ℚ) - 2731) * (1 / 10) := by
  intro rem
  induction rem with
  | zero => intro i j hj; simp [tempLoop] at hj
  | succ rem ih =>
    intro i j hj
    rw [tempLoop_nil_succ] at hj ⊢
    by_cases h : start + i * 2 + 1 ≥ data.length
    · simp [h] at hj
    · simp only [h, ite_false] at hj ⊢
      cases j with
      | zero => simp
      | succ j =>
        simp only [List.getD_cons_succ, List.length_cons] at hj ⊢
        rw [ih (i + 1) j (by omega)]
        have : i + 1 + j = i + (j + 1) := by omega
        rw [this]

/-! ### Projection lemmas for the decoder output -/

/-- The signed current value the decoder publishes when in bounds. -/
def currentValue (data : List Nat) : ℚ :=
  (toInt16 (seplos_get_16bit data (frameOffsets data).current_offset) : ℚ) * (1 / 100)

/-- The total-voltage value the decoder publishes when in bounds: the scale
switches on the protocol-version byte. -/
def totalVoltageValue (data : List Nat) : ℚ :=
  if data.getD 0 0 = SEPLOS_PROTOCOL_V21 then
    (seplos_get_16bit data (frameOffsets data).total_voltage_offset : ℚ) * (1 / 100)
  else
    (seplos_get_16bit data (frameOffsets data).total_voltage_offset : ℚ) * (1 / 1000)

/-- When the temperature-count read is out of bounds the decoder returns
early: all fields after the cell statistics stay unpublished. -/
theorem on_telemetry_data_abort (data : List Nat) (override_cell_count : Nat)
    (h : (frameOffsets data).temp_sensor_count_offset ≥ data.length) :
    (on_telemetry_data data override_cell_count).temperatures = [] ∧
      (on_telemetry_data data override_cell_count).current = none ∧
      (on_telemetry_data data override_cell_count).total_voltage = none ∧
      (on_telemetry_data data override_cell_count).power = none ∧
      (on_telemetry_data data override_cell_count).charging_power = none ∧
      (on_telemetry_data data override_cell_count).discharging_power = none ∧
      (on_telemetry_data data override_cell_count).residual_capacity = none ∧
      (on_telemetry_data data override_cell_count).battery_capacity = none ∧
      (on_telemetry_data data override_cell_count).state_of_charge = none ∧
      (on_telemetry_data data override_cell_count).rated_capacity = none ∧
      (on_telemetry_data data override_cell_count).charging_cycles = none ∧
      (on_telemetry_data data override_cell_count).state_of_health = none ∧
      (on_telemetry_data data override_cell_count).port_voltage = none := by
  unfold on_telemetry_data
  dsimp only
  rw [if_pos h]
  exact ⟨rfl, rfl, rfl, rfl, rfl, rfl, rfl, rfl, rfl, rfl, rfl, rfl, rfl⟩

/-- When the temperature-count read is in bounds, the temperature list and
the seven `safe_publish` fields are published as defined. -/
theorem on_telemetry_data_fields (data : List Nat) (override_cell_count : Nat)
    (h : ¬ (frameOffsets data).temp_sensor_count_offset ≥ data.length) :
    (on_telemetry_data data override_cell_count).temperatures = temperaturesOf data ∧
      (on_telemetry_data data override_cell_count).residual_capacity =
        safe_publish data (frameOffsets data).residual_capacity_offset (1 / 100) ∧
      (on_telemetry_data data override_cell_count).battery_capacity =
        safe_publish data (frameOffsets data).battery_capacity_offset (1 / 100) ∧
      (on_telemetry_data data override_cell_count).state_of_charge =
        safe_publish data (frameOffsets data).soc_offset (1 / 10) ∧
      (on_telemetry_data data override_cell_count).rated_capacity =
        safe_publish data (frameOffsets data).rated_capacity_offset (1 / 100) ∧
      (on_telemetry_data data override_cell_count).charging_cycles =
        safe_publish data (frameOffsets data).cycles_offset 1 ∧
      (on_telemetry_data data override_cell_count).state_of_health =
        safe_publish data (frameOffsets data).soh_offset (1 / 10) ∧
      (on_telemetry_data data override_cell_count).port_voltage =
        safe_publish data (frameOffsets data).port_voltage_offset (1 / 100) := by
  unfold on_telemetry_data
  dsimp only
  rw [if_neg h]
  exact ⟨rfl, rfl, rfl, rfl, rfl, rfl, rfl, rfl⟩

/-- When the temperature-count read and the current read are in bounds, the
current is published. -/
theorem on_telemetry_data_current (data : List Nat) (override_cell_count : Nat)
    (h : ¬ (frameOffsets data).temp_sensor_count_offset ≥ data.length)
    (hc : (frameOffsets data).current_offset + 1 < data.length) :
    (on_telemetry_data data override_cell_count).current = some (currentValue data) := by
  unfold on_telemetry_data currentValue
  dsimp only
  rw [if_neg h]
  dsimp only
  rw [if_pos hc]
  split <;> rfl

/-- When additionally the total-voltage read is in bounds, total voltage,
power and the charge/discharge split are published. -/
theorem on_telemetry_data_elec (data : List Nat) (override_cell_count : Nat)
    (h : ¬ (frameOffsets data).temp_sensor_count_offset ≥ data.length)
    (hc : (frameOffsets data).current_offset + 1 < data.length)
    (htv : (frameOffsets data).total_voltage_offset + 1 < data.length) :
    (on_telemetry_data data override_cell_count).total_voltage =
        some (totalVoltageValue data) ∧
      (on_telemetry_data data override_cell_count).power =
        some (totalVoltageValue data * currentValue data) ∧
      (on_telemetry_data data override_cell_count).charging_power =
        some (max 0 (totalVoltageValue data * currentValue data)) ∧
      (on_telemetry_data data override_cell_count).discharging_power =
        some |min 0 (totalVoltageValue data * currentValue data)| := by
  unfold on_telemetry_data currentValue totalVoltageValue
  dsimp only
  rw [if_neg h]
  dsimp only
  rw [if_pos hc, if_pos htv]
  exact ⟨rfl, rfl, rfl, rfl⟩

/-! ### Bounds of the traced reads -/

/-- Every index the cell-voltage loop reads is inside the frame (each pair
is emitted only under its guard). -/
theorem cellLoopReads_lt (data : List Nat) (start : Nat) :
    ∀ (rem i : Nat), ∀ idx ∈ cellLoopReads data start rem i, idx < data.length := by
  intro rem
  induction rem with
  | zero => intro i idx h; simp [cellLoopReads] at h
  | succ rem ih =>
    intro i idx h
    by_cases hg : start + i * 2 + 1 ≥ data.length
    · simp [cellLoopReads, hg] at h
    · simp only [cellLoopReads, hg, ite_false, List.mem_cons] at h
      rcases h with rfl | rfl | h
      · omega
      · omega
      · exact ih (i + 1) idx h

/-- Every index the temperature loop reads is inside the frame. -/
theorem tempLoopReads_lt (data : List Nat) (start : Nat) :
    ∀ (rem i : Nat), ∀ idx ∈ tempLoopReads data start rem i, idx < data.length := by
  intro rem
  induction rem with
  | zero => intro i idx h; simp [tempLoopReads] at h
  | succ rem ih =>
    intro i idx h
    by_cases hg : start + i * 2 + 1 ≥ data.length
    · simp [tempLoopReads, hg] at h
    · simp only [tempLoopReads, hg, ite_false, List.mem_cons] at h
      rcases h with rfl | rfl | h
      · omega
      · omega
      · exact ih (i + 1) idx h

/-! ### Concrete layouts of registered versions -/

/-- A frame whose version byte is 0x21 uses the v0x21 layout. -/
theorem frameOffsets_v21 (data : List Nat) (hv : data.getD 0 0 = SEPLOS_PROTOCOL_V21) :
    frameOffsets data = offsets_v21 := by
  unfold frameOffsets OFFSET_MAP
  rw [hv]
  simp

/-- A frame whose version byte is 0x25 uses the v0x25 layout. -/
theorem frameOffsets_v25 (data : List Nat) (hv : data.getD 0 0 = SEPLOS_PROTOCOL_V25) :
    frameOffsets data = offsets_v25 := by
  unfold frameOffsets OFFSET_MAP
  rw [hv]
  simp [SEPLOS_PROTOCOL_V21, SEPLOS_PROTOCOL_V25]

/-- For either registered layout, a frame long enough for the current field
also covers the temperature-count byte. -/
theorem temp_off_lt_of_current (data : List Nat)
    (hv : data.getD 0 0 = SEPLOS_PROTOCOL_V21 ∨ data.getD 0 0 = SEPLOS_PROTOCOL_V25)
    (hc : (frameOffsets data).current_offset + 1 < data.length) :
    ¬ (frameOffsets data).temp_sensor_count_offset ≥ data.length := by
  rcases hv with hv | hv
  · rw [frameOffsets_v21 data hv] at hc ⊢
    simp only [offsets_v21] at hc ⊢
    omega
  · rw [frameOffsets_v25 data hv] at hc ⊢
    simp only [offsets_v25] at hc ⊢
    omega

/-- For either registered layout, a frame long enough for the total-voltage
field also covers the current field. -/
theorem current_lt_of_tv (data : List Nat)
    (hv : data.getD 0 0 = SEPLOS_PROTOCOL_V21 ∨ data.getD 0 0 = SEPLOS_PROTOCOL_V25)
    (htv : (frameOffsets data).total_voltage_offset + 1 < data.length) :
    (frameOffsets data).current_offset + 1 < data.length := by
  rcases hv with hv | hv
  · rw [frameOffsets_v21 data hv] at htv ⊢
    simp only [offsets_v21] at htv ⊢
    omega
  · rw [frameOffsets_v25 data hv] at htv ⊢
    simp only [offsets_v25] at htv ⊢
    omega

/-! ### Concrete frames used to instantiate the theorems -/

/-- 57-byte v0x21 frame: 2 cells (3.288 V, 3.304 V), current raw 0xFD72
(-654 as int16, -6.54 A), total voltage raw 0x14A0 (5280). -/
def frameA21 : List Nat :=
  [33, 0, 0, 0, 0, 0, 0, 2, 12, 216, 12, 232, 0, 0, 0, 0, 0, 0, 0, 0, 0,
   0, 0, 0, 0, 0, 0, 0, 0, 0, 0, 0, 0, 0, 0, 0, 0, 0, 0, 0, 0, 0, 0, 0,
   0, 0, 0, 0, 0, 0, 0, 0, 0, 253, 114, 20, 160]

/-- 57-byte v0x25 frame: total voltage raw 0x14A0 (5280) at offset 54. -/
def frameA25 : List Nat :=
  [37, 0, 0, 0, 0, 0, 0, 0, 2, 12, 216, 12, 232, 0, 0, 0, 0, 0, 0, 0, 0,
   0, 0, 0, 0, 0, 0, 0, 0, 0, 0, 0, 0, 0, 0, 0, 0, 0, 0, 0, 0, 0, 0, 0,
   0, 0, 0, 0, 0, 0, 0, 0, 0, 0, 20, 160, 0]

/-- 72-byte v0x25 frame: port-voltage raw 0xE35A (58202) at offset 70. -/
def framePort25 : List Nat :=
  [37, 0, 0, 0, 0, 0, 0, 0, 1, 12, 216, 0, 0, 0, 0, 0, 0, 0, 0, 0, 0,
   0, 0, 0, 0, 0, 0, 0, 0, 0, 0, 0, 0, 0, 0, 0, 0, 0, 0, 0, 0, 0, 0, 0,
   0, 0, 0, 0, 0, 0, 0, 0, 0, 0, 0, 0, 0, 0, 0, 0, 0, 0, 0, 0, 0, 0, 0,
   0, 0, 0, 227, 90]

/-- 40-byte v0x21 frame reporting 16 cells, with all 16 cell slots present. -/
def frameCells16 : List Nat :=
  [33, 0, 0, 0, 0, 0, 0, 16, 12, 100, 12, 101, 12, 102, 12, 103, 12, 104,
   12, 105, 12, 106, 12, 107, 12, 108, 12, 109, 12, 110, 12, 111, 12, 112,
   12, 113, 12, 114, 12, 115]

/-- 73-byte v0x21 frame with every decoded field within bounds: 2 cells,
2 temperature sensors (raw 0x0BA6, 0x0BA0), current 0xFD72, total voltage
0x14A0, and all seven capacity/health fields populated. -/
def frameFull21 : List Nat :=
  [33, 0, 0, 0, 0, 0, 0, 2, 12, 216, 12, 232, 0, 0, 0, 0, 0, 0, 0, 0, 0,
   0, 0, 0, 0, 0, 0, 0, 0, 0, 0, 0, 0, 0, 0, 0, 0, 0, 2, 11, 166, 11,
   160, 0, 0, 0, 0, 0, 0, 0, 0, 0, 0, 253, 114, 20, 160, 52, 78, 0, 0,
   66, 104, 3, 19, 70, 80, 0, 70, 3, 232, 20, 159]

/-- 16-byte v0x21 frame with the four cell voltages of the aggregator
example: 3.288, 3.304, 3.316, 3.287. -/
def frameCells4 : List Nat :=
  [33, 0, 0, 0, 0, 0, 0, 4, 12, 216, 12, 232, 12, 244, 12, 215]

/-- 12-byte v0x21 frame reporting 16 cells but truncated after 2 slots. -/
def frameTrunc : List Nat :=
  [33, 0, 0, 0, 0, 0, 0, 16, 12, 216, 12, 232]

/-- 8-byte v0x25 frame: validated, yet its cell-count byte sits at offset 8,
one past the end. -/
def frameShort25 : List Nat := [37, 0, 0, 0, 0, 0, 0, 0]

/-- 9-byte v0x25 frame: the cell-count byte at offset 8 is the last byte. -/
def frameNine25 : List Nat := [37, 0, 0, 0, 0, 0, 0, 0, 5]

/-! ### The claims -/

/-- C6: every frame shorter than 8 bytes, and every frame whose first byte is
not a key of the offset registry, is rejected whole - nothing is published;
every other frame is handed to the telemetry decoder unchanged. The
validator is modelled as a pure function (it returns the lookup result and
touches no decoder state), so the third conjunct exhibits the decoder
running on the very frame and override the validator received. -/
theorem C6_validator (data : List Nat) (override_cell_count : Nat) :
    (data.length < 8 → on_seplos_modbus_data data override_cell_count = none) ∧
      (OFFSET_MAP (data.getD 0 0) = none →
        on_seplos_modbus_data data override_cell_count = none) ∧
      (8 ≤ data.length → (OFFSET_MAP (data.getD 0 0)).isSome →
        on_seplos_modbus_data data override_cell_count =
          some (on_telemetry_data data override_cell_count)) := by
  refine ⟨?_, ?_, ?_⟩
  · intro h
    unfold on_seplos_modbus_data
    rw [if_pos h]
  · intro h
    unfold on_seplos_modbus_data
    split
    · rfl
    · rw [if_pos (by rw [h]; rfl)]
  · intro h8 hsome
    unfold on_seplos_modbus_data
    have h2 : (OFFSET_MAP (data.getD 0 0)).isNone = false := by
      rcases Option.isSome_iff_exists.mp hsome with ⟨o, ho⟩
      rw [ho]
      rfl
    rw [if_neg (by omega : ¬ data.length < 8), if_neg (by rw [h2]; simp)]

/-- C4: for every validated frame in which the total-voltage field is in
bounds, the published total voltage equals the big-endian raw value times
0.01 under protocol 0x21 and times 0.001 under protocol 0x25; the choice
depends only on the version byte. -/
theorem C4_total_voltage_scale (data : List Nat) (override_cell_count : Nat)
    (h8 : 8 ≤ data.length)
    (hv : data.getD 0 0 = SEPLOS_PROTOCOL_V21 ∨ data.getD 0 0 = SEPLOS_PROTOCOL_V25)
    (htv : (frameOffsets data).total_voltage_offset + 1 < data.length) :
    (data.getD 0 0 = SEPLOS_PROTOCOL_V21 →
      (on_telemetry_data data override_cell_count).total_voltage =
        some ((seplos_get_16bit data (frameOffsets data).total_voltage_offset : ℚ) *
          (1 / 100))) ∧
    (data.getD 0 0 = SEPLOS_PROTOCOL_V25 →
      (on_telemetry_data data override_cell_count).total_voltage =
        some ((seplos_get_16bit data (frameOffsets data).total_voltage_offset : ℚ) *
          (1 / 1000))) := by
  have hc := current_lt_of_tv data hv htv
  have htmp := temp_off_lt_of_current data hv hc
  have helec := (on_telemetry_data_elec data override_cell_count htmp hc htv).1
  rw [helec]
  constructor
  · intro hv1
    unfold totalVoltageValue
    rw [if_pos hv1]
  · intro hv2
    unfold totalVoltageValue
    rw [if_neg]
    rw [hv2]
    simp [SEPLOS_PROTOCOL_V21, SEPLOS_PROTOCOL_V25]

/-- Witness for C4 at 0x14A0: 52.80 V under v0x21, 5.280 V under v0x25. -/
theorem C4_total_voltage_scale_witness :
    (on_telemetry_data frameA21 0).total_voltage = some (528 / 10) ∧
      (on_telemetry_data frameA25 0).total_voltage = some (528 / 100) := by
  constructor
  · have h := (C4_total_voltage_scale frameA21 0 (by decide) (Or.inl (by decide))
      (by decide)).1 (by decide)
    rw [h]
    norm_num [seplos_get_16bit, frameA21, frameOffsets, OFFSET_MAP, offsets_v21,
      SEPLOS_PROTOCOL_V21, List.getD]
  · have h := (C4_total_voltage_scale frameA25 0 (by decide) (Or.inr (by decide))
      (by decide)).2 (by decide)
    rw [h]
    norm_num [seplos_get_16bit, frameA25, frameOffsets, OFFSET_MAP, offsets_v25,
      SEPLOS_PROTOCOL_V21, SEPLOS_PROTOCOL_V25, List.getD]

/-- C9: for every validated frame with current and total voltage in bounds,
power = total voltage × signed current, charging power = max(0, power),
discharging power = |min(0, power)|, and both splits are non-negative. -/
theorem C9_power_split (data : List Nat) (override_cell_count : Nat)
    (h8 : 8 ≤ data.length)
    (hv : data.getD 0 0 = SEPLOS_PROTOCOL_V21 ∨ data.getD 0 0 = SEPLOS_PROTOCOL_V25)
    (hc : (frameOffsets data).current_offset + 1 < data.length)
    (htv : (frameOffsets data).total_voltage_offset + 1 < data.length) :
    (on_telemetry_data data override_cell_count).current = some (currentValue data) ∧
      (on_telemetry_data data override_cell_count).power =
        some (totalVoltageValue data * currentValue data) ∧
      (on_telemetry_data data override_cell_count).charging_power =
        some (max 0 (totalVoltageValue data * currentValue data)) ∧
      (on_telemetry_data data override_cell_count).discharging_power =
        some |min 0 (totalVoltageValue data * currentValue data)| ∧
      (0 : ℚ) ≤ max 0 (totalVoltageValue data * currentValue data) ∧
      (0 : ℚ) ≤ |min 0 (totalVoltageValue data * currentValue data)| := by
  have htmp := temp_off_lt_of_current data hv hc
  have helec := on_telemetry_data_elec data override_cell_count htmp hc htv
  exact ⟨on_telemetry_data_current data override_cell_count htmp hc, helec.2.1,
    helec.2.2.1, helec.2.2.2, le_max_left 0 _, abs_nonneg _⟩

/-- Witness for C9: current -6.54 A at 52.80 V gives power -345.312 W,
charging power 0 and discharging power 345.312 W. -/
theorem C9_power_split_witness :
    (on_telemetry_data frameA21 0).current = some (-(654 / 100)) ∧
      (on_telemetry_data frameA21 0).power = some (-(345312 / 1000)) ∧
      (on_telemetry_data frameA21 0).charging_power = some 0 ∧
      (on_telemetry_data frameA21 0).discharging_power = some (345312 / 1000) := by
  obtain ⟨hcur, hpow, hch, hdis, _, _⟩ :=
    C9_power_split frameA21 0 (by decide) (Or.inl (by decide)) (by decide) (by decide)
  have htv : totalVoltageValue frameA21 = 528 / 10 := by
    norm_num [totalVoltageValue, seplos_get_16bit, frameA21, frameOffsets, OFFSET_MAP,
      offsets_v21, SEPLOS_PROTOCOL_V21, List.getD]
  have hcv : currentValue frameA21 = -(654 / 100) := by
    norm_num [currentValue, toInt16, seplos_get_16bit, frameA21, frameOffsets, OFFSET_MAP,
      offsets_v21, SEPLOS_PROTOCOL_V21, List.getD]
  have hprod : totalVoltageValue frameA21 * currentValue frameA21 = -(345312 / 1000) := by
    rw [htv, hcv]; norm_num
  refine ⟨by rw [hcur, hcv], by rw [hpow, hprod], ?_, ?_⟩
  · rw [hch, hprod, max_eq_left (by norm_num : (-(345312 / 1000) : ℚ) ≤ 0)]
  · rw [hdis, hprod, min_eq_right (by norm_num : (-(345312 / 1000) : ℚ) ≤ 0),
      abs_of_nonpos (by norm_num : (-(345312 / 1000) : ℚ) ≤ 0)]
    norm_num

/-- In both registered layouts the temperature-count offset is at most 39
and every guarded scalar offset is at least 52. -/
theorem scalar_offsets_ge (data : List Nat)
    (hv : data.getD 0 0 = SEPLOS_PROTOCOL_V21 ∨ data.getD 0 0 = SEPLOS_PROTOCOL_V25) :
    (frameOffsets data).temp_sensor_count_offset ≤ 39 ∧
      52 ≤ (frameOffsets data).current_offset ∧
      52 ≤ (frameOffsets data).total_voltage_offset ∧
      52 ≤ (frameOffsets data).residual_capacity_offset ∧
      52 ≤ (frameOffsets data).battery_capacity_offset ∧
      52 ≤ (frameOffsets data).soc_offset ∧
      52 ≤ (frameOffsets data).rated_capacity_offset ∧
      52 ≤ (frameOffsets data).cycles_offset ∧
      52 ≤ (frameOffsets data).soh_offset ∧
      52 ≤ (frameOffsets data).port_voltage_offset := by
  rcases hv with hv | hv
  · rw [frameOffsets_v21 data hv]
    norm_num [offsets_v21]
  · rw [frameOffsets_v25 data hv]
    norm_num [offsets_v25]

/-- C1 counterexample: `framePort25` is a validated v0x25 frame; its
port-voltage raw value 58202 is published as 582.02 (scale 0.01), not as
58.202 (scale 0.001) as the claim states for protocol 0x25. -/
theorem C1_port_voltage_counterexample :
    on_seplos_modbus_data framePort25 0 = some (on_telemetry_data framePort25 0) ∧
      framePort25.getD 0 0 = SEPLOS_PROTOCOL_V25 ∧
      seplos_get_16bit framePort25 (frameOffsets framePort25).port_voltage_offset = 58202 ∧
      (on_telemetry_data framePort25 0).port_voltage = some (58202 / 100) ∧
      ((on_telemetry_data framePort25 0).port_voltage = some (58202 / 1000) → False) := by
  have hval : on_seplos_modbus_data framePort25 0 = some (on_telemetry_data framePort25 0) := by
    unfold on_seplos_modbus_data
    rw [if_neg (by decide), if_neg (by decide)]
  have hport0 := (on_telemetry_data_fields framePort25 0 (by decide)).2.2.2.2.2.2.2
  have hport : (on_telemetry_data framePort25 0).port_voltage = some (58202 / 100) := by
    rw [hport0]
    unfold safe_publish
    rw [if_pos (by decide)]
    rw [show seplos_get_16bit framePort25 (frameOffsets framePort25).port_voltage_offset
      = 58202 from by decide]
    norm_num
  refine ⟨hval, by decide, by decide, hport, ?_⟩
  intro habs
  rw [hport] at habs
  rw [Option.some_inj] at habs
  norm_num at habs

/-- C1 amended: for every validated frame, the port voltage is published
with the fixed scale 0.01 for BOTH protocol versions whenever its two bytes
are in bounds (only total voltage is version-switched), and omitted when
they are not. -/
theorem C1_port_voltage_fixed_scale (data : List Nat) (override_cell_count : Nat)
    (h8 : 8 ≤ data.length)
    (hv : data.getD 0 0 = SEPLOS_PROTOCOL_V21 ∨ data.getD 0 0 = SEPLOS_PROTOCOL_V25) :
    ((frameOffsets data).port_voltage_offset + 1 < data.length →
      (on_telemetry_data data override_cell_count).port_voltage =
        some ((seplos_get_16bit data (frameOffsets data).port_voltage_offset : ℚ) *
          (1 / 100))) ∧
    (¬ (frameOffsets data).port_voltage_offset + 1 < data.length →
      (on_telemetry_data data override_cell_count).port_voltage = none) := by
  obtain ⟨ht, _, _, _, _, _, _, _, _, hprt⟩ := scalar_offsets_ge data hv
  constructor
  · intro hb
    have htmp : ¬ (frameOffsets data).temp_sensor_count_offset ≥ data.length := by omega
    rw [(on_telemetry_data_fields data override_cell_count htmp).2.2.2.2.2.2.2]
    unfold safe_publish
    rw [if_pos hb]
  · intro hb
    by_cases htmp : (frameOffsets data).temp_sensor_count_offset ≥ data.length
    · exact (on_telemetry_data_abort data override_cell_count
        htmp).2.2.2.2.2.2.2.2.2.2.2.2
    · rw [(on_telemetry_data_fields data override_cell_count htmp).2.2.2.2.2.2.2]
      unfold safe_publish
      rw [if_neg hb]

/-- Witness for amended C1 on a v0x21 frame: port raw 0x149F is published as
52.79 V (scale 0.01). -/
theorem C1_port_voltage_fixed_scale_witness :
    (on_telemetry_data frameFull21 0).port_voltage = some (5279 / 100) := by
  have h := (C1_port_voltage_fixed_scale frameFull21 0 (by decide)
    (Or.inl (by decide))).1 (by decide)
  rw [h]
  rw [show seplos_get_16bit frameFull21 (frameOffsets frameFull21).port_voltage_offset
    = 5279 from by decide]
  norm_num

/-- C2: on a validated frame, no field-level out-of-bounds condition aborts
the decode of later fields: every scalar field whose own byte range lies
within the frame is published. (The temperature-count early return and the
nesting of the voltage block inside the current block only suppress fields
whose own ranges are already out of bounds, because offsets increase in
decode order.) -/
theorem C2_no_field_abort (data : List Nat) (override_cell_count : Nat)
    (h8 : 8 ≤ data.length)
    (hv : data.getD 0 0 = SEPLOS_PROTOCOL_V21 ∨ data.getD 0 0 = SEPLOS_PROTOCOL_V25) :
    ((frameOffsets data).current_offset + 1 < data.length →
      (on_telemetry_data data override_cell_count).current.isSome) ∧
      ((frameOffsets data).total_voltage_offset + 1 < data.length →
        (on_telemetry_data data override_cell_count).total_voltage.isSome ∧
        (on_telemetry_data data override_cell_count).power.isSome ∧
        (on_telemetry_data data override_cell_count).charging_power.isSome ∧
        (on_telemetry_data data override_cell_count).discharging_power.isSome) ∧
      ((frameOffsets data).residual_capacity_offset + 1 < data.length →
        (on_telemetry_data data override_cell_count).residual_capacity.isSome) ∧
      ((frameOffsets data).battery_capacity_offset + 1 < data.length →
        (on_telemetry_data data override_cell_count).battery_capacity.isSome) ∧
      ((frameOffsets data).soc_offset + 1 < data.length →
        (on_telemetry_data data override_cell_count).state_of_charge.isSome) ∧
      ((frameOffsets data).rated_capacity_offset + 1 < data.length →
        (on_telemetry_data data override_cell_count).rated_capacity.isSome) ∧
      ((frameOffsets data).cycles_offset + 1 < data.length →
        (on_telemetry_data data override_cell_count).charging_cycles.isSome) ∧
      ((frameOffsets data).soh_offset + 1 < data.length →
        (on_telemetry_data data override_cell_count).state_of_health.isSome) ∧
      ((frameOffsets data).port_voltage_offset + 1 < data.length →
        (on_telemetry_data data override_cell_count).port_voltage.isSome) := by
  obtain ⟨ht, hc0, htv0, hres, hbat, hsoc, hrat, hcyc, hsoh, hprt⟩ :=
    scalar_offsets_ge data hv
  have hfields := fun htmp => on_telemetry_data_fields data override_cell_count htmp
  refine ⟨?_, ?_, ?_, ?_, ?_, ?_, ?_, ?_, ?_⟩
  · intro hb
    have htmp : ¬ (frameOffsets data).temp_sensor_count_offset ≥ data.length := by omega
    rw [on_telemetry_data_current data override_cell_count htmp hb]
    rfl
  · intro hb
    have hc : (frameOffsets data).current_offset + 1 < data.length :=
      current_lt_of_tv data hv hb
    have htmp : ¬ (frameOffsets data).temp_sensor_count_offset ≥ data.length := by omega
    have helec := on_telemetry_data_elec data override_cell_count htmp hc hb
    rw [helec.1, helec.2.1, helec.2.2.1, helec.2.2.2]
    exact ⟨rfl, rfl, rfl, rfl⟩
  · intro hb
    have htmp : ¬ (frameOffsets data).temp_sensor_count_offset ≥ data.length := by omega
    rw [(hfields htmp).2.1]
    unfold safe_publish
    rw [if_pos hb]
    rfl
  · intro hb
    have htmp : ¬ (frameOffsets data).temp_sensor_count_offset ≥ data.length := by omega
    rw [(hfields htmp).2.2.1]
    unfold safe_publish
    rw [if_pos hb]
    rfl
  · intro hb
    have htmp : ¬ (frameOffsets data).temp_sensor_count_offset ≥ data.length := by omega
    rw [(hfields htmp).2.2.2.1]
    unfold safe_publish
    rw [if_pos hb]
    rfl
  · intro hb
    have htmp : ¬ (frameOffsets data).temp_sensor_count_offset ≥ data.length := by omega
    rw [(hfields htmp).2.2.2.2.1]
    unfold safe_publish
    rw [if_pos hb]
    rfl
  · intro hb
    have htmp : ¬ (frameOffsets data).temp_sensor_count_offset ≥ data.length := by omega
    rw [(hfields htmp).2.2.2.2.2.1]
    unfold safe_publish
    rw [if_pos hb]
    rfl
  · intro hb
    have htmp : ¬ (frameOffsets data).temp_sensor_count_offset ≥ data.length := by omega
    rw [(hfields htmp).2.2.2.2.2.2.1]
    unfold safe_publish
    rw [if_pos hb]
    rfl
  · intro hb
    have htmp : ¬ (frameOffsets data).temp_sensor_count_offset ≥ data.length := by omega
    rw [(hfields htmp).2.2.2.2.2.2.2]
    unfold safe_publish
    rw [if_pos hb]
    rfl

/-- Witness for C2 on a frame with every field in bounds: all scalar outputs
are published. -/
theorem C2_no_field_abort_witness :
    (on_telemetry_data frameFull21 0).current.isSome = true ∧
      (on_telemetry_data frameFull21 0).total_voltage.isSome = true ∧
      (on_telemetry_data frameFull21 0).power.isSome = true ∧
      (on_telemetry_data frameFull21 0).charging_power.isSome = true ∧
      (on_telemetry_data frameFull21 0).discharging_power.isSome = true ∧
      (on_telemetry_data frameFull21 0).residual_capacity.isSome = true ∧
      (on_telemetry_data frameFull21 0).battery_capacity.isSome = true ∧
      (on_telemetry_data frameFull21 0).state_of_charge.isSome = true ∧
      (on_telemetry_data frameFull21 0).rated_capacity.isSome = true ∧
      (on_telemetry_data frameFull21 0).charging_cycles.isSome = true ∧
      (on_telemetry_data frameFull21 0).state_of_health.isSome = true ∧
      (on_telemetry_data frameFull21 0).port_voltage.isSome = true := by
  obtain ⟨h1, h2, h3, h4, h5, h6, h7, h8, h9⟩ :=
    C2_no_field_abort frameFull21 0 (by decide) (Or.inl (by decide))
  obtain ⟨h21, h22, h23, h24⟩ := h2 (by decide)
  exact ⟨h1 (by decide), h21, h22, h23, h24, h3 (by decide), h4 (by decide),
    h5 (by decide), h6 (by decide), h7 (by decide), h8 (by decide), h9 (by decide)⟩

/-- C5: the published average is the sum of the successfully read cell
voltages divided by the effective cell count - not by the number of cells
actually read - for every validated frame, including frames whose loop
stopped early. -/
theorem C5_average_divisor (data : List Nat) (override_cell_count : Nat)
    (h8 : 8 ≤ data.length)
    (hv : data.getD 0 0 = SEPLOS_PROTOCOL_V21 ∨ data.getD 0 0 = SEPLOS_PROTOCOL_V25) :
    (on_telemetry_data data override_cell_count).average_cell_voltage =
      (on_telemetry_data data override_cell_count).cell_voltages.sum /
        (effective_cells data override_cell_count : ℚ) := by
  obtain ⟨hvolts, _, _, _, _, _, havg⟩ :=
    on_telemetry_data_cell_fields data override_cell_count
  rw [havg, hvolts, (cellAccOf_inv data override_cell_count).sum_eq]

/-- Witness for C5 on a truncated frame: 16 reported cells, only 2 slots in
the frame; the average divides by 16, not by 2. -/
theorem C5_average_divisor_witness :
    effective_cells frameTrunc 0 = 16 ∧
      (on_telemetry_data frameTrunc 0).cell_voltages.length = 2 ∧
      (on_telemetry_data frameTrunc 0).cell_voltages.sum = 6592 / 1000 ∧
      (on_telemetry_data frameTrunc 0).average_cell_voltage = 412 / 1000 ∧
      ((on_telemetry_data frameTrunc 0).average_cell_voltage =
        (on_telemetry_data frameTrunc 0).cell_voltages.sum / 2 → False) := by
  have h := C5_average_divisor frameTrunc 0 (by decide) (Or.inl (by decide))
  have heff : effective_cells frameTrunc 0 = 16 := by decide
  have hlen : (on_telemetry_data frameTrunc 0).cell_voltages.length = 2 := by
    norm_num [on_telemetry_data, frameOffsets, OFFSET_MAP, offsets_v21, offsets_v25,
      SEPLOS_PROTOCOL_V21, SEPLOS_PROTOCOL_V25, effective_cells, cellAccOf, initCellAcc,
      cellLoop, tempLoop, temperaturesOf, safe_publish, seplos_get_16bit, toInt16,
      frameTrunc, List.getD]
  have hsum : (on_telemetry_data frameTrunc 0).cell_voltages.sum = 6592 / 1000 := by
    norm_num [on_telemetry_data, frameOffsets, OFFSET_MAP, offsets_v21, offsets_v25,
      SEPLOS_PROTOCOL_V21, SEPLOS_PROTOCOL_V25, effective_cells, cellAccOf, initCellAcc,
      cellLoop, tempLoop, temperaturesOf, safe_publish, seplos_get_16bit, toInt16,
      frameTrunc, List.getD]
  have havg : (on_telemetry_data frameTrunc 0).average_cell_voltage = 412 / 1000 := by
    rw [h, heff, hsum]
    norm_num
  refine ⟨heff, hlen, hsum, havg, ?_⟩
  intro habs
  rw [havg, hsum] at habs
  norm_num at habs

/-- C7: the cell loop iterates cell indices 0 up to min(16, effective
count), where the effective count is the override when non-zero and the
device-reported byte otherwise: never more voltages than min(16, eff), and
every index below min(16, eff) whose slot is in bounds is read. -/
theorem C7_cell_loop_bounds (data : List Nat) (override_cell_count : Nat)
    (h8 : 8 ≤ data.length)
    (hv : data.getD 0 0 = SEPLOS_PROTOCOL_V21 ∨ data.getD 0 0 = SEPLOS_PROTOCOL_V25) :
    (effective_cells data override_cell_count =
        if override_cell_count ≠ 0 then override_cell_count
        else data.getD (frameOffsets data).cell_count_offset 0) ∧
      (on_telemetry_data data override_cell_count).cell_voltages.length ≤
        min 16 (effective_cells data override_cell_count) ∧
      (∀ k < min 16 (effective_cells data override_cell_count),
        (frameOffsets data).cell_voltages_start + k * 2 + 1 < data.length →
        k < (on_telemetry_data data override_cell_count).cell_voltages.length) := by
  refine ⟨rfl, ?_, ?_⟩
  · rw [(on_telemetry_data_cell_fields data override_cell_count).1, cellAccOf_volts]
    exact voltsList_len_le data _ _ 0
  · intro k hk hin
    rw [(on_telemetry_data_cell_fields data override_cell_count).1, cellAccOf_volts]
    exact voltsList_reaches data _ _ 0 k hk (by simpa using hin)

/-- Witness for C7: override 4 on a frame reporting 16 cells, with all 16
slots present, yields exactly 4 decoded cell voltages. -/
theorem C7_cell_loop_bounds_witness :
    frameCells16.getD (frameOffsets frameCells16).cell_count_offset 0 = 16 ∧
      effective_cells frameCells16 4 = 4 ∧
      (on_telemetry_data frameCells16 4).cell_voltages.length = 4 := by
  have h := C7_cell_loop_bounds frameCells16 4 (by decide) (Or.inl (by decide))
  have heff : effective_cells frameCells16 4 = 4 := by decide
  have h1 := h.2.1
  rw [heff] at h1
  rw [show min 16 4 = 4 from by decide] at h1
  have h2 := h.2.2 3 (by decide) (by decide)
  exact ⟨by decide, heff, by omega⟩

/-- C10: temperature decoding reads the sensor count at
`temp_sensor_count_offset`; if that single byte is out of bounds the whole
remaining decode is abandoned (nothing after the cell statistics is
published); otherwise at most min(6, count) sensors are read, each converted
as (raw - 2731) x 0.1 degrees Celsius, and an out-of-bounds slot stops the
loop early while every in-bounds slot below min(6, count) is still read. -/
theorem C10_temperatures (data : List Nat) (override_cell_count : Nat)
    (h8 : 8 ≤ data.length)
    (hv : data.getD 0 0 = SEPLOS_PROTOCOL_V21 ∨ data.getD 0 0 = SEPLOS_PROTOCOL_V25) :
    ((frameOffsets data).temp_sensor_count_offset ≥ data.length →
      (on_telemetry_data data override_cell_count).temperatures = [] ∧
      (on_telemetry_data data override_cell_count).current = none ∧
      (on_telemetry_data data override_cell_count).total_voltage = none ∧
      (on_telemetry_data data override_cell_count).power = none ∧
      (on_telemetry_data data override_cell_count).charging_power = none ∧
      (on_telemetry_data data override_cell_count).discharging_power = none ∧
      (on_telemetry_data data override_cell_count).residual_capacity = none ∧
      (on_telemetry_data data override_cell_count).battery_capacity = none ∧
      (on_telemetry_data data override_cell_count).state_of_charge = none ∧
      (on_telemetry_data data override_cell_count).rated_capacity = none ∧
      (on_telemetry_data data override_cell_count).charging_cycles = none ∧
      (on_telemetry_data data override_cell_count).state_of_health = none ∧
      (on_telemetry_data data override_cell_count).port_voltage = none) ∧
    ((frameOffsets data).temp_sensor_count_offset < data.length →
      (on_telemetry_data data override_cell_count).temperatures.length ≤
        min 6 (data.getD (frameOffsets data).temp_sensor_count_offset 0) ∧
      (∀ j < (on_telemetry_data data override_cell_count).temperatures.length,
        (on_telemetry_data data override_cell_count).temperatures.getD j 0 =
          ((seplos_get_16bit data ((frameOffsets data).temp_sensors_start + j * 2) : ℚ) -
            2731) * (1 / 10)) ∧
      (∀ j < min 6 (data.getD (frameOffsets data).temp_sensor_count_offset 0),
        (frameOffsets data).temp_sensors_start + j * 2 + 1 < data.length →
        j < (on_telemetry_data data override_cell_count).temperatures.length)) := by
  constructor
  · exact on_telemetry_data_abort data override_cell_count
  · intro hlt
    rw [(on_telemetry_data_fields data override_cell_count (by omega)).1]
    unfold temperaturesOf
    refine ⟨tempLoop_len_le data _ _ 0, ?_, ?_⟩
    · intro j hj
      have := tempLoop_getD data _ _ 0 j hj
      simpa using this
    · intro j hj hin
      exact tempLoop_reaches data _ _ 0 j hj (by simpa using hin)

/-- Witness for C10 on a frame reporting 2 sensors: raw 0x0BA6 gives
25.1 C and raw 0x0BA0 gives 24.5 C. -/
theorem C10_temperatures_witness :
    (on_telemetry_data frameFull21 0).temperatures.length ≤ 2 ∧
      (on_telemetry_data frameFull21 0).temperatures.getD 0 0 = 251 / 10 ∧
      (on_telemetry_data frameFull21 0).temperatures.getD 1 0 = 245 / 10 := by
  obtain ⟨hlen, hval, hreach⟩ :=
    (C10_temperatures frameFull21 0 (by decide) (Or.inl (by decide))).2 (by decide)
  have hcount : frameFull21.getD (frameOffsets frameFull21).temp_sensor_count_offset 0
      = 2 := by decide
  rw [hcount] at hlen hreach
  have hr0 : 0 < (on_telemetry_data frameFull21 0).temperatures.length :=
    hreach 0 (by decide) (by decide)
  have hr1 : 1 < (on_telemetry_data frameFull21 0).temperatures.length :=
    hreach 1 (by decide) (by decide)
  refine ⟨by simpa using hlen, ?_, ?_⟩
  · rw [hval 0 hr0, show seplos_get_16bit frameFull21
      ((frameOffsets frameFull21).temp_sensors_start + 0 * 2) = 2982 from by decide]
    norm_num
  · rw [hval 1 hr1, show seplos_get_16bit frameFull21
      ((frameOffsets frameFull21).temp_sensors_start + 1 * 2) = 2976 from by decide]
    norm_num

/-- C8: the aggregator publishes delta = max - min; when zero cells were
read the sentinels +100 and -100 (with index 0) are published as-is; when at
least one cell was read, the published min (resp. max) is the minimum
(resp. maximum) of the read voltages and the published cell index is the
1-based position of its first occurrence - ties keep the first-seen index,
because the loop updates only on strict comparisons. -/
theorem C8_cell_stats (data : List Nat) (override_cell_count : Nat)
    (h8 : 8 ≤ data.length)
    (hv : data.getD 0 0 = SEPLOS_PROTOCOL_V21 ∨ data.getD 0 0 = SEPLOS_PROTOCOL_V25) :
    (on_telemetry_data data override_cell_count).delta_cell_voltage =
        (on_telemetry_data data override_cell_count).max_cell_voltage -
          (on_telemetry_data data override_cell_count).min_cell_voltage ∧
      ((on_telemetry_data data override_cell_count).cell_voltages = [] →
        (on_telemetry_data data override_cell_count).min_cell_voltage = 100 ∧
        (on_telemetry_data data override_cell_count).max_cell_voltage = -100 ∧
        (on_telemetry_data data override_cell_count).min_voltage_cell = 0 ∧
        (on_telemetry_data data override_cell_count).max_voltage_cell = 0) ∧
      ((on_telemetry_data data override_cell_count).cell_voltages ≠ [] →
        (on_telemetry_data data override_cell_count).min_cell_voltage ∈
          (on_telemetry_data data override_cell_count).cell_voltages ∧
        (∀ v ∈ (on_telemetry_data data override_cell_count).cell_voltages,
          (on_telemetry_data data override_cell_count).min_cell_voltage ≤ v) ∧
        1 ≤ (on_telemetry_data data override_cell_count).min_voltage_cell ∧
        (on_telemetry_data data override_cell_count).min_voltage_cell ≤
          (on_telemetry_data data override_cell_count).cell_voltages.length ∧
        (on_telemetry_data data override_cell_count).cell_voltages.getD
            ((on_telemetry_data data override_cell_count).min_voltage_cell - 1) 0 =
          (on_telemetry_data data override_cell_count).min_cell_voltage ∧
        (∀ k < (on_telemetry_data data override_cell_count).min_voltage_cell - 1,
          (on_telemetry_data data override_cell_count).min_cell_voltage <
            (on_telemetry_data data override_cell_count).cell_voltages.getD k 0)) ∧
      ((on_telemetry_data data override_cell_count).cell_voltages ≠ [] →
        (on_telemetry_data data override_cell_count).max_cell_voltage ∈
          (on_telemetry_data data override_cell_count).cell_voltages ∧
        (∀ v ∈ (on_telemetry_data data override_cell_count).cell_voltages,
          v ≤ (on_telemetry_data data override_cell_count).max_cell_voltage) ∧
        1 ≤ (on_telemetry_data data override_cell_count).max_voltage_cell ∧
        (on_telemetry_data data override_cell_count).max_voltage_cell ≤
          (on_telemetry_data data override_cell_count).cell_voltages.length ∧
        (on_telemetry_data data override_cell_count).cell_voltages.getD
            ((on_telemetry_data data override_cell_count).max_voltage_cell - 1) 0 =
          (on_telemetry_data data override_cell_count).max_cell_voltage ∧
        (∀ k < (on_telemetry_data data override_cell_count).max_voltage_cell - 1,
          (on_telemetry_data data override_cell_count).cell_voltages.getD k 0 <
            (on_telemetry_data data override_cell_count).max_cell_voltage)) := by
  obtain ⟨hvolts, hmin, hmax, hminI, hmaxI, hdelta, _⟩ :=
    on_telemetry_data_cell_fields data override_cell_count
  have H := cellAccOf_inv data override_cell_count
  refine ⟨by rw [hdelta, hmax, hmin], ?_, ?_, ?_⟩
  · intro he
    rw [hvolts] at he
    rw [hmin, hmax, hminI, hmaxI]
    exact ⟨(H.empty_min he).1, (H.empty_max he).1, (H.empty_min he).2,
      (H.empty_max he).2⟩
  · intro hne
    rw [hvolts] at hne
    rw [hmin, hminI, hvolts]
    exact ⟨H.min_mem hne, H.min_le, (H.min_idx hne).1, (H.min_idx hne).2.1,
      (H.min_idx hne).2.2.1, (H.min_idx hne).2.2.2⟩
  · intro hne
    rw [hvolts] at hne
    rw [hmax, hmaxI, hvolts]
    exact ⟨H.max_mem hne, H.max_ge, (H.max_idx hne).1, (H.max_idx hne).2.1,
      (H.max_idx hne).2.2.1, (H.max_idx hne).2.2.2⟩

set_option maxHeartbeats 1000000 in
/-- Witness for C8 on the spec example [3.288, 3.304, 3.316, 3.287]:
min 3.287 at cell 4, max 3.316 at cell 3, delta 0.029, average 3.29875. -/
theorem C8_cell_stats_witness :
    (on_telemetry_data frameCells4 0).cell_voltages =
        [3288 / 1000, 3304 / 1000, 3316 / 1000, 3287 / 1000] ∧
      (on_telemetry_data frameCells4 0).min_cell_voltage = 3287 / 1000 ∧
      (on_telemetry_data frameCells4 0).min_voltage_cell = 4 ∧
      (on_telemetry_data frameCells4 0).max_cell_voltage = 3316 / 1000 ∧
      (on_telemetry_data frameCells4 0).max_voltage_cell = 3 ∧
      (on_telemetry_data frameCells4 0).delta_cell_voltage = 29 / 1000 ∧
      (on_telemetry_data frameCells4 0).average_cell_voltage = 329875 / 100000 := by
  have h := C8_cell_stats frameCells4 0 (by decide) (Or.inl (by decide))
  have hminv : (on_telemetry_data frameCells4 0).min_cell_voltage = 3287 / 1000 := by
    norm_num [on_telemetry_data, frameOffsets, OFFSET_MAP, offsets_v21, offsets_v25,
      SEPLOS_PROTOCOL_V21, SEPLOS_PROTOCOL_V25, effective_cells, cellAccOf, initCellAcc,
      cellLoop, tempLoop, temperaturesOf, safe_publish, seplos_get_16bit, toInt16,
      frameCells4, List.getD]
  have hmaxv : (on_telemetry_data frameCells4 0).max_cell_voltage = 3316 / 1000 := by
    norm_num [on_telemetry_data, frameOffsets, OFFSET_MAP, offsets_v21, offsets_v25,
      SEPLOS_PROTOCOL_V21, SEPLOS_PROTOCOL_V25, effective_cells, cellAccOf, initCellAcc,
      cellLoop, tempLoop, temperaturesOf, safe_publish, seplos_get_16bit, toInt16,
      frameCells4, List.getD]
  have hdeltav : (on_telemetry_data frameCells4 0).delta_cell_voltage = 29 / 1000 := by
    rw [h.1, hmaxv, hminv]
    norm_num
  refine ⟨?_, hminv, ?_, hmaxv, ?_, hdeltav, ?_⟩ <;>
    norm_num [on_telemetry_data, frameOffsets, OFFSET_MAP, offsets_v21, offsets_v25,
      SEPLOS_PROTOCOL_V21, SEPLOS_PROTOCOL_V25, effective_cells, cellAccOf, initCellAcc,
      cellLoop, tempLoop, temperaturesOf, safe_publish, seplos_get_16bit, toInt16,
      frameCells4, List.getD]

/-- Membership in a guarded two-byte read trace implies in-bounds. -/
theorem mem_pair_reads (data : List Nat) (pos idx : Nat)
    (h : idx ∈ (if pos + 1 < data.length then [pos, pos + 1] else [])) :
    idx < data.length := by
  by_cases hc : pos + 1 < data.length
  · rw [if_pos hc] at h
    simp only [List.mem_cons, List.not_mem_nil, or_false] at h
    rcases h with rfl | rfl
    · omega
    · omega
  · rw [if_neg hc] at h
    simp at h

/-- Every index the telemetry decoder reads lies inside the frame, provided
the unguarded cell-count read is itself covered (first disjunct) or never
performed (non-zero override, second disjunct). -/
theorem telemetryReadIndices_lt (data : List Nat) (override_cell_count : Nat)
    (h8 : 8 ≤ data.length)
    (hcc : (frameOffsets data).cell_count_offset < data.length ∨ override_cell_count ≠ 0) :
    ∀ idx ∈ telemetryReadIndices data override_cell_count, idx < data.length := by
  intro idx hidx
  unfold telemetryReadIndices at hidx
  simp only [List.mem_append, List.mem_cons, List.mem_singleton, List.not_mem_nil,
    or_false] at hidx
  rcases hidx with ((h | h) | h) | h
  · omega
  · by_cases ho : override_cell_count ≠ 0
    · rw [if_pos ho] at h
      simp at h
    · rw [if_neg ho] at h
      simp only [List.mem_singleton] at h
      subst h
      rcases hcc with hlt | hne
      · exact hlt
      · exact absurd hne ho
  · exact cellLoopReads_lt data _ _ _ idx h
  · by_cases htmp : (frameOffsets data).temp_sensor_count_offset ≥ data.length
    · rw [if_pos htmp] at h
      simp at h
    · rw [if_neg htmp] at h
      simp only [List.mem_append, List.mem_cons, List.mem_singleton,
        List.not_mem_nil, or_false] at h
      rcases h with ((((((((h | h) | h) | h) | h) | h) | h) | h) | h) | h
      · omega
      · exact tempLoopReads_lt data _ _ _ idx h
      · by_cases hcur : (frameOffsets data).current_offset + 1 < data.length
        · rw [if_pos hcur] at h
          simp only [List.mem_append, List.mem_cons, List.not_mem_nil, or_false] at h
          rcases h with (rfl | rfl) | h
          · omega
          · omega
          · exact mem_pair_reads data _ idx h
        · rw [if_neg hcur] at h
          simp at h
      · exact mem_pair_reads data _ idx h
      · exact mem_pair_reads data _ idx h
      · exact mem_pair_reads data _ idx h
      · exact mem_pair_reads data _ idx h
      · exact mem_pair_reads data _ idx h
      · exact mem_pair_reads data _ idx h
      · exact mem_pair_reads data _ idx h

/-- C3 counterexample: the 8-byte v0x25 frame passes the validator, yet the
decoder reads byte index 8 - one past the end of the frame. This is the
unguarded cell-count read (`cell_count_offset = 8` in the v0x25 layout,
while validation only requires 8 bytes). -/
theorem C3_reads_counterexample :
    on_seplos_modbus_data frameShort25 0 = some (on_telemetry_data frameShort25 0) ∧
      8 ∈ decoderReadIndices frameShort25 0 ∧
      frameShort25.length = 8 ∧
      (8 < frameShort25.length → False) := by
  refine ⟨?_, by decide, by decide, by decide⟩
  unfold on_seplos_modbus_data
  rw [if_neg (by decide), if_neg (by decide)]

/-- C3 amended: for every validated frame, every byte index the decoder
reads is strictly below the frame length, PROVIDED the unguarded cell-count
read is covered: that always holds for v0x21 (offset 7 < 8 <= length), and
for v0x25 it additionally requires at least 9 bytes or a non-zero override.
The remaining case - a v0x25 frame of exactly 8 bytes and no override - is
the single out-of-bounds read (see the counterexample above). -/
theorem C3_reads_in_bounds (data : List Nat) (override_cell_count : Nat)
    (h8 : 8 ≤ data.length)
    (hv : data.getD 0 0 = SEPLOS_PROTOCOL_V21 ∨ data.getD 0 0 = SEPLOS_PROTOCOL_V25)
    (hcc : data.getD 0 0 = SEPLOS_PROTOCOL_V25 → override_cell_count = 0 →
      9 ≤ data.length) :
    ∀ idx ∈ decoderReadIndices data override_cell_count, idx < data.length := by
  intro idx hidx
  unfold decoderReadIndices at hidx
  rw [if_neg (by omega)] at hidx
  rcases List.mem_cons.mp hidx with rfl | hidx
  · omega
  · have hsome : ¬ ((OFFSET_MAP (data.getD 0 0)).isNone = true) := by
      rcases hv with hv | hv <;> rw [hv] <;> decide
    rw [if_neg hsome] at hidx
    have hcc2 : (frameOffsets data).cell_count_offset < data.length ∨
        override_cell_count ≠ 0 := by
      rcases hv with hv | hv
      · left
        rw [frameOffsets_v21 data hv]
        simp only [offsets_v21]
        omega
      · by_cases ho : override_cell_count = 0
        · left
          rw [frameOffsets_v25 data hv]
          simp only [offsets_v25]
          have := hcc hv ho
          omega
        · right
          exact ho
    exact telemetryReadIndices_lt data override_cell_count h8 hcc2 idx hidx

/-- Witness for amended C3: on a 9-byte v0x25 frame every traced read index
is in bounds. -/
theorem C3_reads_in_bounds_witness :
    (decoderReadIndices frameNine25 0).all
      (fun idx => decide (idx < frameNine25.length)) = true := by
  have h := C3_reads_in_bounds frameNine25 0 (by decide) (Or.inr (by decide))
    (fun _ _ => by decide)
  exact List.all_eq_true.mpr (fun idx hidx => decide_eq_true (h idx hidx))

end SeplosBms
